import Mathlib

/-!
# SmartReturns prediction engine — formal model

A shallow embedding, over exact rationals, of the deterministic decision and
scoring logic of `ml/prediction_engine.py`: the disposition-valuation
heuristics of `DispositionPredictor`, the forecast shaping of
`ValueForecaster`, the anomaly flags of `AnomalyDetector` and the weighted
risk scoring of `RiskAssessment`.

Modelling conventions:
* Python floats are modelled as `ℚ`; all the multiplier tables are exact
  decimal fractions.
* Python `round(x, n)` (round half to even on the scaled value) is `pyRound0`
  composed with scaling.
* Python `str.lower()` is `strLower` (ASCII case folding, written via
  `List.map` on the character list so that the kernel can evaluate it).
* The trained scikit-learn estimators (`RandomForestClassifier`,
  `GradientBoostingRegressor`, `StandardScaler`) and the numpy numeric
  kernels (`np.std`, `np.polyfit`) are opaque external collaborators; they
  appear as function parameters, with their standard contracts (one
  prediction per input row, non-negative standard deviation) as hypotheses.
* `raise ValueError(...)` on an untrained model is modelled by `Except`
  with the error kind `MLError.notTrained` (the spec's `NotTrainedError`).
-/

namespace SmartReturns

/-- Python `round(x)` to an integer: round half to even (banker's rounding),
modelled over exact rationals. -/
def pyRound0 (q : ℚ) : ℤ :=
  if q - ⌊q⌋ < 1/2 then ⌊q⌋
  else if 1/2 < q - ⌊q⌋ then ⌊q⌋ + 1
  else if ⌊q⌋ % 2 = 0 then ⌊q⌋ else ⌊q⌋ + 1

/-- Python `round(x, 2)`. -/
def round2 (q : ℚ) : ℚ := (pyRound0 (q * 100) : ℚ) / 100

/-- Python `round(x, 1)`. -/
def round1 (q : ℚ) : ℚ := (pyRound0 (q * 10) : ℚ) / 10

/-- Python `str.lower()` (ASCII case folding; `Char.toLower` lowercases
exactly the letters `A`–`Z`, which covers every string the engine compares
against). Written through `List.map` so `decide` can evaluate it. -/
def strLower (s : String) : String := ⟨s.data.map Char.toLower⟩

/-- The `ReturnItem` dataclass. The two `datetime` fields are modelled as
integer epoch days; none of the verified properties reads them. -/
structure ReturnItem where
  sku : String
  product_name : String
  category : String
  condition : String
  return_reason : String
  original_price : ℚ
  customer_age : ℤ
  purchase_channel : String
  location : String
  return_date : ℤ
  manufacturing_date : ℤ
  warranty_status : String
  material_composition : List String
  seasonality : String
  market_demand : String

/-- The `PredictionResult` dataclass. -/
structure PredictionResult where
  recommended_action : String
  confidence : ℚ
  estimated_value : ℚ
  co2_saved : ℚ
  landfill_avoided : ℚ
  processing_time : ℤ
  marketplace : Option String
  reasoning : String

/-- Error kinds of the engine. `ValueError("Model must be trained before
making predictions")` / `("... before forecasting")` realise the spec's
`NotTrainedError`. -/
inductive MLError where
  | notTrained
deriving DecidableEq

namespace FeatureEngineering

/-- `FeatureEngineering._encode_condition`:
`condition_map.get(condition.lower(), 0.5)`. -/
def encode_condition (condition : String) : ℚ :=
  if strLower condition = "new" then 1.0
  else if strLower condition = "lightly-used" then 0.8
  else if strLower condition = "good" then 0.6
  else if strLower condition = "fair" then 0.4
  else if strLower condition = "poor" then 0.2
  else if strLower condition = "defective" then 0.0
  else 0.5

end FeatureEngineering

namespace DispositionPredictor

/-- `condition_multiplier` dict of `_calculate_estimated_value`, looked up at
`item.condition.lower()` with default `0.3`. -/
def condition_multiplier (condition : String) : ℚ :=
  if strLower condition = "new" then 0.75
  else if strLower condition = "lightly-used" then 0.55
  else if strLower condition = "good" then 0.40
  else if strLower condition = "fair" then 0.25
  else if strLower condition = "poor" then 0.10
  else if strLower condition = "defective" then 0.05
  else 0.3

/-- `action_multiplier` dict of `_calculate_estimated_value`, looked up at
`action.lower()` with default `0.3`. -/
def action_multiplier (action : String) : ℚ :=
  if strLower action = "resale" then 1.0
  else if strLower action = "repair" then 0.6
  else if strLower action = "recycle" then 0.05
  else if strLower action = "donate" then 0.0
  else 0.3

/-- `demand_adjustment` dict of `_calculate_estimated_value`, looked up at
`item.market_demand.lower()` with default `1.0`. -/
def demand_adjustment (demand : String) : ℚ :=
  if strLower demand = "high" then 1.2
  else if strLower demand = "medium" then 1.0
  else if strLower demand = "low" then 0.8
  else 1.0

/-- `DispositionPredictor._calculate_estimated_value`. -/
def calculate_estimated_value (item : ReturnItem) (action : String) : ℚ :=
  round2 (item.original_price * condition_multiplier item.condition *
    action_multiplier action * demand_adjustment item.market_demand)

/-- `base_co2_per_rupee` dict of `_calculate_co2_impact`, looked up at
`action.lower()` with default `0.001`. -/
def co2_factor (action : String) : ℚ :=
  if strLower action = "resale" then 0.003
  else if strLower action = "repair" then 0.002
  else if strLower action = "recycle" then 0.001
  else if strLower action = "donate" then 0.0025
  else 0.001

/-- `DispositionPredictor._calculate_co2_impact`. -/
def calculate_co2_impact (item : ReturnItem) (action : String) : ℚ :=
  round2 (item.original_price * co2_factor action)

/-- `category_weight` dict of `_calculate_waste_impact` (exact category
match, no lowercasing) with default `0.5`. -/
def category_weight (category : String) : ℚ :=
  if category = "Electronics" then 0.8
  else if category = "Appliances" then 2.5
  else if category = "Fashion" then 0.3
  else if category = "Home & Kitchen" then 0.6
  else 0.5

/-- `action_factor` dict of `_calculate_waste_impact`, looked up at
`action.lower()` with default `0.5`. -/
def waste_action_factor (action : String) : ℚ :=
  if strLower action = "resale" then 0.95
  else if strLower action = "repair" then 0.85
  else if strLower action = "recycle" then 0.60
  else if strLower action = "donate" then 0.90
  else 0.5

/-- `DispositionPredictor._calculate_waste_impact`. -/
def calculate_waste_impact (item : ReturnItem) (action : String) : ℚ :=
  round2 (category_weight item.category * waste_action_factor action)

/-- `base_times` dict of `_estimate_processing_time`, looked up at
`action.lower()` with default `3`. -/
def base_processing_time (action : String) : ℤ :=
  if strLower action = "resale" then 2
  else if strLower action = "repair" then 5
  else if strLower action = "recycle" then 1
  else if strLower action = "donate" then 3
  else 3

/-- `category_multiplier` dict of `_estimate_processing_time` (exact category
match) with default `1.0`. -/
def processing_category_multiplier (category : String) : ℚ :=
  if category = "Electronics" then 1.3
  else if category = "Appliances" then 1.5
  else if category = "Fashion" then 0.8
  else if category = "Home & Kitchen" then 1.0
  else 1.0

/-- `DispositionPredictor._estimate_processing_time`:
`max(1, round(base_time * multiplier))`. -/
def estimate_processing_time (action : String) (category : String) : ℤ :=
  max 1 (pyRound0 (base_processing_time action * processing_category_multiplier category))

/-- `DispositionPredictor._select_marketplace`. -/
def select_marketplace (action : String) (category : String) (value : ℚ) :
    Option String :=
  if strLower action ≠ "resale" then none
  else if value > 10000 then some "Flipkart"
  else if value > 2000 then some "Flipkart 2GUD"
  else if category = "Fashion" then some "Myntra"
  else if category = "Electronics" then some "Amazon Renewed"
  else some "Walmart Marketplace"

/-- `condition_desc` dict of `_generate_reasoning`, looked up at
`item.condition.lower()` with default `"unknown"`. -/
def condition_desc (condition : String) : String :=
  if strLower condition = "new" then "excellent"
  else if strLower condition = "lightly-used" then "very good"
  else if strLower condition = "good" then "good"
  else if strLower condition = "fair" then "acceptable"
  else if strLower condition = "poor" then "poor"
  else if strLower condition = "defective" then "defective"
  else "unknown"

/-- `DispositionPredictor._generate_reasoning`. The four action comparisons
are case-SENSITIVE (`action == 'resale'` etc., no `.lower()`), unlike the
valuation lookups. Python's `f"{confidence:.1%}"` float formatting is
abstracted as the rendering parameter `fmt`. -/
def generate_reasoning (fmt : ℚ → String) (item : ReturnItem) (action : String)
    (confidence : ℚ) : String :=
  let base_reason := "Item in " ++ condition_desc item.condition ++ " condition"
  if action = "resale" then
    base_reason ++ ", suitable for resale market. " ++ item.category ++ " has good demand."
  else if action = "repair" then
    base_reason ++ ", economically viable for repair and resale."
  else if action = "recycle" then
    base_reason ++ ", beyond economical repair. Materials can be responsibly recycled."
  else if action = "donate" then
    base_reason ++ ", has social value for donation programs."
  else
    base_reason ++ ". Confidence: " ++ fmt confidence

/-- The `marketplace` field as computed inside `predict`:
`_select_marketplace(recommended_action, item.category, estimated_value)`
with `estimated_value = _calculate_estimated_value(item, recommended_action)`. -/
def predictionMarketplace (item : ReturnItem) (recommended_action : String) :
    Option String :=
  select_marketplace recommended_action item.category
    (calculate_estimated_value item recommended_action)

/-- Trained/untrained flag of a `DispositionPredictor` instance
(`self.is_trained`). -/
structure State where
  is_trained : Bool

/-- `DispositionPredictor.predict`. The trained classifier pipeline
(`scaler.transform`, `model.predict`, `model.predict_proba`,
`label_encoder.inverse_transform`) is an opaque collaborator; its output on
this item — the decoded top label and its probability — is the parameter
`modelOut`. Raising `ValueError` when untrained is modelled as `Except`. -/
def predictE (s : State) (fmt : ℚ → String) (modelOut : String × ℚ)
    (item : ReturnItem) : Except MLError PredictionResult :=
  if !s.is_trained then .error .notTrained
  else
    .ok { recommended_action := modelOut.1
          confidence := modelOut.2
          estimated_value := calculate_estimated_value item modelOut.1
          co2_saved := calculate_co2_impact item modelOut.1
          landfill_avoided := calculate_waste_impact item modelOut.1
          processing_time := estimate_processing_time modelOut.1 item.category
          marketplace := predictionMarketplace item modelOut.1
          reasoning := generate_reasoning fmt item modelOut.1 modelOut.2 }

end DispositionPredictor

namespace ValueForecaster

/-- Trained state of a `ValueForecaster` instance. `predictFn` is
`self.scaler.transform` followed by `self.model.predict` — the opaque
trained-regressor collaborator mapping feature rows to predictions. -/
structure State where
  is_trained : Bool
  predictFn : List (List ℚ) → List ℚ

/-- Arithmetic mean (`np.mean`). -/
def listMean (l : List ℚ) : ℚ := l.sum / l.length

/-- Population variance (`np.var`, the square of `np.std`). -/
def listVar (l : List ℚ) : ℚ :=
  (l.map (fun x => (x - listMean l) ^ 2)).sum / l.length

/-- One entry of `forecast_data`. -/
structure ForecastEntry where
  period : ℕ
  predicted_value : ℚ
  lower_bound : ℚ
  upper_bound : ℚ

/-- The `ForecastResult` dataclass; the hard-coded
`accuracy_metrics = ('mae': 0.0, 'r2': 0.0)` dict is modelled as two
fields. -/
structure ForecastResult where
  predictions : List ForecastEntry
  confidence_intervals : List (ℚ × ℚ)
  trend : String
  seasonality_factor : ℚ
  mae : ℚ
  r2 : ℚ

/-- `ValueForecaster._generate_future_features`. The calendar fields of
`datetime.now() + timedelta(days=30*i)` read the wall clock; they are
supplied by the parameter `dateFeats i = (month, quarter, weekday, day)`. -/
def generate_future_features (dateFeats : ℕ → ℚ × ℚ × ℚ × ℚ) (periods : ℕ)
    (category : Option String) : List (List ℚ) :=
  let category_encoding : ℚ :=
    match category with
    | some "Electronics" => 0.9
    | some "Fashion" => 0.6
    | some "Appliances" => 0.8
    | some "Home & Kitchen" => 0.5
    | _ => 0.6
  (List.range periods).map fun i =>
    [(dateFeats i).1, (dateFeats i).2.1, (dateFeats i).2.2.1, (dateFeats i).2.2.2,
     category_encoding, 5000, 100, 0.6]

/-- `ValueForecaster._analyze_trend`. The least-squares slope
`np.polyfit(x, predictions, 1)[0]` is the opaque numeric collaborator
`slopeFn`. -/
def analyze_trend (slopeFn : List ℚ → ℚ) (predictions : List ℚ) : String :=
  if predictions.length < 2 then "stable"
  else if slopeFn predictions > 0.05 then "increasing"
  else if slopeFn predictions < -0.05 then "decreasing"
  else "stable"

/-- `ValueForecaster._calculate_seasonality`. -/
def calculate_seasonality (predictions : List ℚ) : ℚ :=
  if predictions.length < 4 then 0.0
  else if listMean predictions > 0 then
    min (listVar predictions / (listMean predictions) ^ 2) 1.0
  else 0.0

/-- `ValueForecaster.forecast`. `np.std` is `sqrtFn` applied to the
population variance (`np.std l = sqrt (np.var l)`); the square root is the
opaque numeric collaborator `sqrtFn`. Raising `ValueError` when untrained is
modelled as `Except`. -/
def forecast (sqrtFn : ℚ → ℚ) (slopeFn : List ℚ → ℚ)
    (dateFeats : ℕ → ℚ × ℚ × ℚ × ℚ) (vf : State) (periods : ℕ)
    (category : Option String) : Except MLError ForecastResult :=
  if !vf.is_trained then .error .notTrained
  else
    let future_features := generate_future_features dateFeats periods category
    let predictions := vf.predictFn future_features
    let std_error := sqrtFn (listVar predictions) * 0.1
    let confidence_intervals := predictions.map fun pred =>
      (pred - 1.96 * std_error, pred + 1.96 * std_error)
    let forecast_data := ((predictions.zip confidence_intervals).enum).map
      fun x => { period := x.1 + 1
                 predicted_value := x.2.1
                 lower_bound := x.2.2.1
                 upper_bound := x.2.2.2 : ForecastEntry }
    .ok { predictions := forecast_data
          confidence_intervals := confidence_intervals
          trend := analyze_trend slopeFn predictions
          seasonality_factor := calculate_seasonality predictions
          mae := 0.0
          r2 := 0.0 }

end ValueForecaster

namespace AnomalyDetector

/-- `self.baseline_stats` as produced by `AnomalyDetector.fit`:
`daily_mean`, `daily_std` and the per-category mean counts
(`category_means` as an association list). `daily_std` is the pandas sample
standard deviation of the per-date means; it is `0` exactly when all
baseline daily means are equal (a zero-variance baseline). -/
structure BaselineStats where
  daily_mean : ℚ
  daily_std : ℚ
  category_means : List (String × ℚ)

/-- One anomaly record. The `description` field of the Python dict is pure
string rendering of the other fields and is not modelled. -/
structure Anomaly where
  type : String
  key : String
  value : ℚ
  expected : ℚ
  severity : String
deriving DecidableEq

/-- The comparison `t < num / den` under numpy float semantics: dividing a
positive numerator by zero yields `+inf`, which exceeds every finite
threshold; `0/0` yields `NaN`, and every comparison with `NaN` is false.
(`warnings.filterwarnings('ignore')` at module top silences the
`RuntimeWarning`, so no exception is raised either way.) -/
def divGT (num den t : ℚ) : Bool :=
  if den = 0 then decide (0 < num) else decide (t < num / den)

/-- `AnomalyDetector.detect_anomalies`. The two pandas groupby-sums of
`current_data` are taken as already-grouped `(date, total count)` and
`(category, total count)` lists; `self.threshold` defaults to `2.5`. -/
def detect_anomalies (threshold : ℚ) (stats : BaselineStats)
    (daily_counts : List (String × ℚ)) (category_counts : List (String × ℚ)) :
    List Anomaly :=
  let volume := daily_counts.filterMap fun dc =>
    if divGT |dc.2 - stats.daily_mean| stats.daily_std threshold then
      some { type := "volume_anomaly"
             key := dc.1
             value := dc.2
             expected := stats.daily_mean
             severity :=
               if divGT |dc.2 - stats.daily_mean| stats.daily_std 3 then "high"
               else "medium" }
    else none
  let category := category_counts.filterMap fun cc =>
    let expected :=
      (((stats.category_means.find? fun p => p.1 == cc.1).map Prod.snd).getD 0)
    if 0 < expected then
      if 0.5 < |cc.2 - expected| / expected then
        some { type := "category_anomaly"
               key := cc.1
               value := cc.2
               expected := expected
               severity :=
                 if 1.0 < |cc.2 - expected| / expected then "high"
                 else "medium" }
      else none
    else none
  volume ++ category

end AnomalyDetector

namespace RiskAssessment

/-- The `category_data` dict consumed by `calculate_risk_score`; every field
is read with `.get(key, 0)`, so each is optional. -/
structure CategoryData where
  return_rate : Option ℚ
  value_recovery_rate : Option ℚ
  defect_rate : Option ℚ
  demand_volatility : Option ℚ
  avg_processing_time : Option ℚ

/-- The `scores` dict of `calculate_risk_score`. -/
structure ComponentScores where
  volume_risk : ℚ
  value_risk : ℚ
  quality_risk : ℚ
  market_risk : ℚ
  operational_risk : ℚ

/-- The dict returned by `calculate_risk_score`. -/
structure RiskResult where
  overall_score : ℚ
  risk_level : String
  component_scores : ComponentScores
  recommendations : List String

/-- `RiskAssessment._generate_risk_recommendations`. -/
def generate_risk_recommendations (scores : ComponentScores)
    (overall_score : ℚ) : List String :=
  (if scores.volume_risk > 70 then
    ["Implement return prevention strategies and improve product descriptions"] else []) ++
  (if scores.value_risk > 70 then
    ["Optimize pricing strategies and explore new marketplaces"] else []) ++
  (if scores.quality_risk > 70 then
    ["Enhance quality control processes and supplier management"] else []) ++
  (if scores.market_risk > 70 then
    ["Diversify market channels and improve demand forecasting"] else []) ++
  (if scores.operational_risk > 70 then
    ["Streamline processing workflows and increase capacity"] else []) ++
  (if overall_score > 80 then
    ["URGENT: Immediate intervention required across all risk areas"] else [])

/-- `RiskAssessment.calculate_risk_score` with the weights from
`self.risk_factors` (volume 0.3, value 0.25, quality 0.2, market 0.15,
operational 0.1). The tier is decided on the unrounded weighted sum; only
the returned `overall_score` is rounded to one decimal. -/
def calculate_risk_score (category_data : CategoryData) : RiskResult :=
  let scores : ComponentScores :=
    { volume_risk := min (category_data.return_rate.getD 0 / 0.15) 1.0 * 100
      value_risk := max 0 ((0.6 - category_data.value_recovery_rate.getD 0) / 0.6) * 100
      quality_risk := min (category_data.defect_rate.getD 0 / 0.1) 1.0 * 100
      market_risk := min (category_data.demand_volatility.getD 0 / 0.3) 1.0 * 100
      operational_risk := min (category_data.avg_processing_time.getD 0 / 7) 1.0 * 100 }
  let overall_score :=
    scores.volume_risk * 0.3 + scores.value_risk * 0.25 + scores.quality_risk * 0.2 +
      scores.market_risk * 0.15 + scores.operational_risk * 0.1
  let risk_level :=
    if overall_score ≥ 80 then "Critical"
    else if overall_score ≥ 60 then "High"
    else if overall_score ≥ 40 then "Medium"
    else "Low"
  { overall_score := round1 overall_score
    risk_level := risk_level
    component_scores := scores
    recommendations := generate_risk_recommendations scores overall_score }

end RiskAssessment

/-- A concrete return record (the sample item of the module's `main`),
used to instantiate theorems with hypotheses at concrete inputs. -/
def testItem : ReturnItem :=
  { sku := "SAMPLE-123"
    product_name := "Bluetooth Headphones"
    category := "Electronics"
    condition := "lightly-used"
    return_reason := "Sound quality not as expected"
    original_price := 2500
    customer_age := 28
    purchase_channel := "online"
    location := "Mumbai"
    return_date := 19723
    manufacturing_date := 19543
    warranty_status := "active"
    material_composition := ["Plastic", "Electronics", "Metal"]
    seasonality := "medium"
    market_demand := "high" }

/-! ## Helper lemmas -/

theorem floor_le_pyRound0 (q : ℚ) : ⌊q⌋ ≤ pyRound0 q := by
  unfold pyRound0
  split_ifs <;> omega

theorem pyRound0_le_ceil (q : ℚ) : pyRound0 q ≤ ⌈q⌉ := by
  have h1 : (⌊q⌋ : ℚ) ≤ q := Int.floor_le q
  have h2 : ⌊q⌋ ≤ ⌈q⌉ := Int.floor_le_ceil q
  have key : ¬ (q - ⌊q⌋ < 1/2) → ⌊q⌋ + 1 ≤ ⌈q⌉ := by
    intro ha
    push_neg at ha
    have hq : (⌊q⌋ : ℚ) < q := by linarith
    have := Int.lt_ceil.mpr hq
    omega
  unfold pyRound0
  split_ifs with ha hb hc
  · exact h2
  · exact key ha
  · exact h2
  · exact key ha

theorem round2_nonneg {q : ℚ} (h : 0 ≤ q) : 0 ≤ round2 q := by
  have h0 : (0 : ℤ) ≤ ⌊q * 100⌋ := Int.floor_nonneg.mpr (by positivity)
  have h1 : (0 : ℤ) ≤ pyRound0 (q * 100) := le_trans h0 (floor_le_pyRound0 _)
  unfold round2
  positivity

theorem round2_le_int {q : ℚ} {n : ℤ} (h : q ≤ n) : round2 q ≤ n := by
  have h0 : ⌈q * 100⌉ ≤ 100 * n := by
    rw [Int.ceil_le]
    push_cast
    linarith
  have h1 : pyRound0 (q * 100) ≤ 100 * n := le_trans (pyRound0_le_ceil _) h0
  have h2 : ((pyRound0 (q * 100) : ℚ)) ≤ ((100 * n : ℤ) : ℚ) := by exact_mod_cast h1
  unfold round2
  rw [div_le_iff₀ (by norm_num)]
  push_cast at h2 ⊢
  linarith

theorem round1_le_int {q : ℚ} {n : ℤ} (h : q ≤ n) : round1 q ≤ n := by
  have h0 : ⌈q * 10⌉ ≤ 10 * n := by
    rw [Int.ceil_le]
    push_cast
    linarith
  have h1 : pyRound0 (q * 10) ≤ 10 * n := le_trans (pyRound0_le_ceil _) h0
  have h2 : ((pyRound0 (q * 10) : ℚ)) ≤ ((10 * n : ℤ) : ℚ) := by exact_mod_cast h1
  unfold round1
  rw [div_le_iff₀ (by norm_num)]
  push_cast at h2 ⊢
  linarith

namespace DispositionPredictor

theorem condition_multiplier_nonneg (c : String) : 0 ≤ condition_multiplier c := by
  unfold condition_multiplier
  split_ifs <;> norm_num

theorem condition_multiplier_le (c : String) : condition_multiplier c ≤ 0.75 := by
  unfold condition_multiplier
  split_ifs <;> norm_num

theorem action_multiplier_nonneg (a : String) : 0 ≤ action_multiplier a := by
  unfold action_multiplier
  split_ifs <;> norm_num

theorem action_multiplier_le (a : String) : action_multiplier a ≤ 1 := by
  unfold action_multiplier
  split_ifs <;> norm_num

theorem demand_adjustment_nonneg (d : String) : 0 ≤ demand_adjustment d := by
  unfold demand_adjustment
  split_ifs <;> norm_num

theorem demand_adjustment_le (d : String) : demand_adjustment d ≤ 1.2 := by
  unfold demand_adjustment
  split_ifs <;> norm_num

theorem action_multiplier_congr {x y : String} (h : strLower x = strLower y) :
    action_multiplier x = action_multiplier y := by
  unfold action_multiplier
  rw [h]

theorem co2_factor_congr {x y : String} (h : strLower x = strLower y) :
    co2_factor x = co2_factor y := by
  unfold co2_factor
  rw [h]

theorem waste_action_factor_congr {x y : String} (h : strLower x = strLower y) :
    waste_action_factor x = waste_action_factor y := by
  unfold waste_action_factor
  rw [h]

theorem base_processing_time_congr {x y : String} (h : strLower x = strLower y) :
    base_processing_time x = base_processing_time y := by
  unfold base_processing_time
  rw [h]

theorem select_marketplace_congr {x y : String} (h : strLower x = strLower y)
    (category : String) (value : ℚ) :
    select_marketplace x category value = select_marketplace y category value := by
  unfold select_marketplace
  rw [h]

end DispositionPredictor

namespace ValueForecaster

theorem listVar_nonneg (l : List ℚ) : 0 ≤ listVar l := by
  unfold listVar
  apply div_nonneg
  · apply List.sum_nonneg
    intro x hx
    obtain ⟨y, _, rfl⟩ := List.mem_map.mp hx
    positivity
  · positivity

end ValueForecaster

theorem strLower_new : strLower "new" = "new" := by decide

theorem strLower_resale : strLower "resale" = "resale" := by decide

theorem strLower_high : strLower "high" = "high" := by decide

theorem strLower_low : strLower "low" = "low" := by decide

/-! ## Claim theorems -/

open DispositionPredictor in
/-- C1. For every return item and action string, the estimated recovery value
equals original price × condition multiplier × action multiplier × demand
adjustment rounded to 2 decimals, with the tables new 0.75 / lightly-used 0.55
/ good 0.40 / fair 0.25 / poor 0.10 / defective 0.05 / default 0.30 on the
lowercased condition, resale 1.0 / repair 0.6 / recycle 0.05 / donate 0.0 /
default 0.30 on the lowercased action and high 1.2 / medium 1.0 / low 0.8 /
default 1.0 on the lowercased demand; for non-negative original price the
value is non-negative, and for the donate action it is exactly 0. -/
theorem C1_estimated_value (item : ReturnItem) (action : String) :
    calculate_estimated_value item action =
      round2 (item.original_price *
        (if strLower item.condition = "new" then 0.75
         else if strLower item.condition = "lightly-used" then 0.55
         else if strLower item.condition = "good" then 0.40
         else if strLower item.condition = "fair" then 0.25
         else if strLower item.condition = "poor" then 0.10
         else if strLower item.condition = "defective" then 0.05
         else 0.3) *
        (if strLower action = "resale" then 1.0
         else if strLower action = "repair" then 0.6
         else if strLower action = "recycle" then 0.05
         else if strLower action = "donate" then 0.0
         else 0.3) *
        (if strLower item.market_demand = "high" then 1.2
         else if strLower item.market_demand = "medium" then 1.0
         else if strLower item.market_demand = "low" then 0.8
         else 1.0)) ∧
    (0 ≤ item.original_price → 0 ≤ calculate_estimated_value item action) ∧
    (strLower action = "donate" → calculate_estimated_value item action = 0) := by
  refine ⟨rfl, ?_, ?_⟩
  · intro h
    apply round2_nonneg
    exact mul_nonneg
      (mul_nonneg (mul_nonneg h (condition_multiplier_nonneg item.condition))
        (action_multiplier_nonneg action))
      (demand_adjustment_nonneg item.market_demand)
  · intro h
    have ha : action_multiplier action = 0 := by
      unfold action_multiplier
      rw [h]
      simp
      norm_num
    unfold calculate_estimated_value
    rw [ha]
    ring_nf
    norm_num [round2, pyRound0]

open DispositionPredictor in
/-- Witness for C1: the sample item with the donate action. -/
theorem C1_estimated_value_witness :
    0 ≤ testItem.original_price ∧
    0 ≤ calculate_estimated_value testItem "donate" ∧
    calculate_estimated_value testItem "donate" = 0 :=
  ⟨by norm_num [testItem],
   (C1_estimated_value testItem "donate").2.1 (by norm_num [testItem]),
   (C1_estimated_value testItem "donate").2.2 (by decide)⟩

open DispositionPredictor in
/-- C3. Marketplace selection follows the fixed priority order: every action
whose lowercasing is not "resale" gets no marketplace; for resale, value above
10000 gives Flipkart, then value above 2000 gives Flipkart 2GUD, then category
Fashion gives Myntra, then Electronics gives Amazon Renewed, otherwise
Walmart Marketplace. -/
theorem C3_marketplace_priority (action category : String) (value : ℚ) :
    (strLower action ≠ "resale" → select_marketplace action category value = none) ∧
    (strLower action = "resale" →
      (10000 < value → select_marketplace action category value = some "Flipkart") ∧
      (value ≤ 10000 → 2000 < value →
        select_marketplace action category value = some "Flipkart 2GUD") ∧
      (value ≤ 2000 → category = "Fashion" →
        select_marketplace action category value = some "Myntra") ∧
      (value ≤ 2000 → category ≠ "Fashion" → category = "Electronics" →
        select_marketplace action category value = some "Amazon Renewed") ∧
      (value ≤ 2000 → category ≠ "Fashion" → category ≠ "Electronics" →
        select_marketplace action category value = some "Walmart Marketplace")) := by
  unfold select_marketplace
  constructor
  · intro h
    rw [if_pos h]
  · intro h
    rw [if_neg (by simp [h])]
    refine ⟨?_, ?_, ?_, ?_, ?_⟩
    · intro hv
      rw [if_pos hv]
    · intro hv1 hv2
      rw [if_neg (not_lt.mpr hv1), if_pos hv2]
    · intro hv hc
      rw [if_neg (not_lt.mpr (by linarith)), if_neg (not_lt.mpr hv), if_pos hc]
    · intro hv hf hc
      rw [if_neg (not_lt.mpr (by linarith)), if_neg (not_lt.mpr hv), if_neg hf,
        if_pos hc]
    · intro hv hf hc
      rw [if_neg (not_lt.mpr (by linarith)), if_neg (not_lt.mpr hv), if_neg hf,
        if_neg hc]

open DispositionPredictor in
/-- Witness for C3: a non-resale action gets no marketplace; a low-value
Fashion resale goes to Myntra. -/
theorem C3_marketplace_priority_witness :
    select_marketplace "donate" "Fashion" 50 = none ∧
    select_marketplace "resale" "Fashion" 100 = some "Myntra" :=
  ⟨(C3_marketplace_priority "donate" "Fashion" 50).1 (by decide),
   (((C3_marketplace_priority "resale" "Fashion" 100).2 (by decide)).2.2.1)
     (by norm_num) rfl⟩

/-- C8. Condition encoding is total: every string (compared after
lowercasing) gets a score in [0, 1]; the six known conditions map to their
table values and every other string maps to exactly 0.5. -/
theorem C8_condition_encoding (s : String) :
    (0 ≤ FeatureEngineering.encode_condition s ∧
      FeatureEngineering.encode_condition s ≤ 1) ∧
    (strLower s = "new" → FeatureEngineering.encode_condition s = 1.0) ∧
    (strLower s = "lightly-used" → FeatureEngineering.encode_condition s = 0.8) ∧
    (strLower s = "good" → FeatureEngineering.encode_condition s = 0.6) ∧
    (strLower s = "fair" → FeatureEngineering.encode_condition s = 0.4) ∧
    (strLower s = "poor" → FeatureEngineering.encode_condition s = 0.2) ∧
    (strLower s = "defective" → FeatureEngineering.encode_condition s = 0.0) ∧
    (strLower s ∉ (["new", "lightly-used", "good", "fair", "poor", "defective"] :
        List String) →
      FeatureEngineering.encode_condition s = 0.5) := by
  unfold FeatureEngineering.encode_condition
  split_ifs with h1 h2 h3 h4 h5 h6 <;>
    refine ⟨⟨by norm_num, by norm_num⟩, ?_, ?_, ?_, ?_, ?_, ?_, ?_⟩ <;>
      simp_all

/-- Witness for C8: an uppercase known condition, a mixed-case known
condition and an unknown condition. -/
theorem C8_condition_encoding_witness :
    FeatureEngineering.encode_condition "NEW" = 1.0 ∧
    FeatureEngineering.encode_condition "Defective" = 0.0 ∧
    FeatureEngineering.encode_condition "mint" = 0.5 :=
  ⟨(C8_condition_encoding "NEW").2.1 (by decide),
   (C8_condition_encoding "Defective").2.2.2.2.2.2.1 (by decide),
   (C8_condition_encoding "mint").2.2.2.2.2.2.2 (by decide)⟩

/-- C10. `calculate_risk_score` is total over partial inputs: on the empty
input mapping every missing field reads as 0, so volume, quality, market and
operational risks are 0, value risk is 100, the overall score is 25.0 and the
risk level is "Low". -/
theorem C10_empty_input_defaults :
    (RiskAssessment.calculate_risk_score ⟨none, none, none, none, none⟩).component_scores =
      ⟨0, 100, 0, 0, 0⟩ ∧
    (RiskAssessment.calculate_risk_score ⟨none, none, none, none, none⟩).overall_score =
      25.0 ∧
    (RiskAssessment.calculate_risk_score ⟨none, none, none, none, none⟩).risk_level =
      "Low" := by
  norm_num [RiskAssessment.calculate_risk_score, round1, pyRound0, min_def, max_def]

open DispositionPredictor in
/-- C4 counterexample: original price 15000, category Electronics, recommended
action resale — but condition new with market demand low gives estimated value
9000, so the selected marketplace is Flipkart 2GUD, not Flipkart. -/
theorem C4_counterexample :
    predictionMarketplace
      { testItem with
        original_price := 15000
        category := "Electronics"
        condition := "new"
        market_demand := "low" } "resale" = some "Flipkart 2GUD" := by
  have hc : condition_multiplier "new" = 0.75 := by
    simp [condition_multiplier, strLower_new]
  have ha : action_multiplier "resale" = 1.0 := by
    simp [action_multiplier, strLower_resale]
  have hd : demand_adjustment "low" = 0.8 := by
    simp [demand_adjustment, strLower_low]
  have hv : calculate_estimated_value
      { testItem with
        original_price := 15000
        category := "Electronics"
        condition := "new"
        market_demand := "low" } "resale" = 9000 := by
    unfold calculate_estimated_value
    simp only [testItem]
    rw [hc, ha, hd]
    norm_num [round2, pyRound0]
  unfold predictionMarketplace select_marketplace
  rw [hv]
  rw [if_neg (by simp [strLower_resale])]
  rw [if_neg (by norm_num), if_pos (by norm_num)]

open DispositionPredictor in
/-- C4 (amended). With original price 15000, category Electronics, condition
new and market demand high, a resale recommendation selects Flipkart
(estimated value 13500 > 10000); and for every return item with original
price 1500 and category Fashion, a resale recommendation selects Myntra
regardless of condition and market demand (the estimated value can never
exceed 1500 × 0.75 × 1.2 = 1350). -/
theorem C4_literal_marketplaces (item item2 : ReturnItem)
    (hp : item.original_price = 15000) (_hcat : item.category = "Electronics")
    (hcond : item.condition = "new") (hdem : item.market_demand = "high")
    (h2p : item2.original_price = 1500) (h2cat : item2.category = "Fashion") :
    predictionMarketplace item "resale" = some "Flipkart" ∧
    predictionMarketplace item2 "resale" = some "Myntra" := by
  have ha : action_multiplier "resale" = 1.0 := by
    simp [action_multiplier, strLower_resale]
  constructor
  · have hc : condition_multiplier "new" = 0.75 := by
      simp [condition_multiplier, strLower_new]
    have hd : demand_adjustment "high" = 1.2 := by
      simp [demand_adjustment, strLower_high]
    have hv : calculate_estimated_value item "resale" = 13500 := by
      unfold calculate_estimated_value
      rw [hp, hcond, hdem, hc, ha, hd]
      norm_num [round2, pyRound0]
    unfold predictionMarketplace select_marketplace
    rw [hv]
    rw [if_neg (by simp [strLower_resale])]
    rw [if_pos (by norm_num)]
  · have hcle := condition_multiplier_le item2.condition
    have hcge := condition_multiplier_nonneg item2.condition
    have hdle := demand_adjustment_le item2.market_demand
    have hdge := demand_adjustment_nonneg item2.market_demand
    have hv : calculate_estimated_value item2 "resale" ≤ 1350 := by
      unfold calculate_estimated_value
      rw [h2p, ha]
      apply round2_le_int (n := 1350)
      nlinarith
    unfold predictionMarketplace select_marketplace
    rw [if_neg (by simp [strLower_resale])]
    rw [if_neg (by push_neg; linarith), if_neg (by push_neg; linarith), h2cat,
      if_pos rfl]

open DispositionPredictor in
/-- Witness for C4 (amended): both halves at concrete items. -/
theorem C4_literal_marketplaces_witness :
    predictionMarketplace
      { testItem with
        original_price := 15000
        category := "Electronics"
        condition := "new"
        market_demand := "high" } "resale" = some "Flipkart" ∧
    predictionMarketplace
      { testItem with
        original_price := 1500
        category := "Fashion" } "resale" = some "Myntra" :=
  C4_literal_marketplaces
    { testItem with
      original_price := 15000
      category := "Electronics"
      condition := "new"
      market_demand := "high" }
    { testItem with original_price := 1500, category := "Fashion" }
    rfl rfl rfl rfl rfl rfl

open DispositionPredictor in
/-- C5. Invoking predict on an untrained DispositionPredictor fails with the
not-trained error, and invoking forecast on an untrained ValueForecaster
fails with the not-trained error; the Except result carries no partial
payload in either case. -/
theorem C5_untrained_errors (s : DispositionPredictor.State) (fmt : ℚ → String)
    (modelOut : String × ℚ) (item : ReturnItem) (vf : ValueForecaster.State)
    (sqrtFn : ℚ → ℚ) (slopeFn : List ℚ → ℚ) (dateFeats : ℕ → ℚ × ℚ × ℚ × ℚ)
    (periods : ℕ) (category : Option String)
    (hs : s.is_trained = false) (hv : vf.is_trained = false) :
    predictE s fmt modelOut item = .error .notTrained ∧
    ValueForecaster.forecast sqrtFn slopeFn dateFeats vf periods category =
      .error .notTrained := by
  constructor
  · unfold predictE
    rw [hs]
    rfl
  · unfold ValueForecaster.forecast
    rw [hv]
    rfl

/-- Witness for C5: concrete untrained states. -/
theorem C5_untrained_errors_witness :
    DispositionPredictor.predictE ⟨false⟩ (fun _ => "") ("resale", 1) testItem =
      .error .notTrained ∧
    ValueForecaster.forecast (fun _ => 0) (fun _ => 0) (fun _ => (1, 1, 1, 1))
      ⟨false, fun X => X.map fun _ => 0⟩ 6 none = .error .notTrained :=
  C5_untrained_errors ⟨false⟩ (fun _ => "") ("resale", 1) testItem
    ⟨false, fun X => X.map fun _ => 0⟩ (fun _ => 0) (fun _ => 0)
    (fun _ => (1, 1, 1, 1)) 6 none rfl rfl

/-- C2 (code-bug exhibit). With a fitted zero-variance baseline
(daily_mean 10, daily_std 0) and one current date of total count 11,
detect_anomalies raises no error but reports a high-severity volume anomaly:
the z-score |11 − 10| / 0 is +inf under numpy float semantics, which exceeds
every threshold. The claim (and spec §4.5) require no volume anomalies from a
zero-variance baseline; the code guards the category means (`expected > 0`)
but not the daily std. -/
theorem C2_zero_std_volume_anomaly :
    AnomalyDetector.detect_anomalies 2.5 ⟨10, 0, []⟩ [("2024-01-01", 11)] [] =
      [{ type := "volume_anomaly"
         key := "2024-01-01"
         value := 11
         expected := 10
         severity := "high" }] := by
  simp only [AnomalyDetector.detect_anomalies, AnomalyDetector.divGT]
  norm_num [List.filterMap_cons]

/-- C6 counterexample: with value_recovery_rate −6 and every other field
missing, the value-risk component is 1100 and the overall score 275 — neither
the components nor the overall score are capped at 100 as the claim states. -/
theorem C6_counterexample :
    100 < (RiskAssessment.calculate_risk_score
      ⟨none, some (-6), none, none, none⟩).component_scores.value_risk ∧
    100 < (RiskAssessment.calculate_risk_score
      ⟨none, some (-6), none, none, none⟩).overall_score := by
  norm_num [RiskAssessment.calculate_risk_score, round1, pyRound0, min_def, max_def]

theorem min_one_mul_hundred_le (x : ℚ) : min x 1.0 * 100 ≤ 100 := by
  have h := min_le_right x (1.0 : ℚ)
  linarith

theorem value_risk_cap {r : ℚ} (h : 0 ≤ r) : max 0 ((0.6 - r) / 0.6) * 100 ≤ 100 := by
  have h1 : (0.6 - r) / 0.6 ≤ 1 := by
    rw [div_le_one (by norm_num)]
    linarith
  have h2 : max 0 ((0.6 - r) / 0.6) ≤ 1 := max_le (by norm_num) h1
  linarith

/-- C6 (amended). The overall risk score is the weighted sum S of the five
component scores with weights volume 0.30, value 0.25, quality 0.20, market
0.15, operational 0.10, rounded to one decimal in the returned score. The
volume, quality, market and operational components are each capped at 100;
the value component is capped at 100 whenever the supplied value recovery
rate is non-negative, in which case the overall score is also bounded by 100
(for a negative recovery rate the value component, and hence the score, is
unbounded — see the counterexample). The tier is Critical when S ≥ 80, High
when S ≥ 60, Medium when S ≥ 40, else Low. The literal input
(return_rate 0.12, value_recovery_rate 0.65, defect_rate 0.08,
demand_volatility 0.25, avg_processing_time 3.5) reproduces score 57.5 and
tier Medium. -/
theorem C6_risk_score (d : RiskAssessment.CategoryData) :
    ∃ S : ℚ,
      S = (RiskAssessment.calculate_risk_score d).component_scores.volume_risk * 0.3 +
          (RiskAssessment.calculate_risk_score d).component_scores.value_risk * 0.25 +
          (RiskAssessment.calculate_risk_score d).component_scores.quality_risk * 0.2 +
          (RiskAssessment.calculate_risk_score d).component_scores.market_risk * 0.15 +
          (RiskAssessment.calculate_risk_score d).component_scores.operational_risk * 0.1 ∧
      (RiskAssessment.calculate_risk_score d).overall_score = round1 S ∧
      (RiskAssessment.calculate_risk_score d).component_scores.volume_risk ≤ 100 ∧
      (RiskAssessment.calculate_risk_score d).component_scores.quality_risk ≤ 100 ∧
      (RiskAssessment.calculate_risk_score d).component_scores.market_risk ≤ 100 ∧
      (RiskAssessment.calculate_risk_score d).component_scores.operational_risk ≤ 100 ∧
      (0 ≤ d.value_recovery_rate.getD 0 →
        (RiskAssessment.calculate_risk_score d).component_scores.value_risk ≤ 100 ∧
        S ≤ 100 ∧
        (RiskAssessment.calculate_risk_score d).overall_score ≤ 100) ∧
      (80 ≤ S → (RiskAssessment.calculate_risk_score d).risk_level = "Critical") ∧
      (60 ≤ S → S < 80 → (RiskAssessment.calculate_risk_score d).risk_level = "High") ∧
      (40 ≤ S → S < 60 → (RiskAssessment.calculate_risk_score d).risk_level = "Medium") ∧
      (S < 40 → (RiskAssessment.calculate_risk_score d).risk_level = "Low") ∧
      (RiskAssessment.calculate_risk_score
        ⟨some 0.12, some 0.65, some 0.08, some 0.25, some 3.5⟩).overall_score = 57.5 ∧
      (RiskAssessment.calculate_risk_score
        ⟨some 0.12, some 0.65, some 0.08, some 0.25, some 3.5⟩).risk_level = "Medium" := by
  simp only [RiskAssessment.calculate_risk_score]
  refine ⟨_, rfl, rfl, min_one_mul_hundred_le _, min_one_mul_hundred_le _,
    min_one_mul_hundred_le _, min_one_mul_hundred_le _, ?_, ?_, ?_, ?_, ?_, ?_, ?_⟩
  · intro h
    have hv := value_risk_cap h
    have h1 := min_one_mul_hundred_le (d.return_rate.getD 0 / 0.15)
    have h2 := min_one_mul_hundred_le (d.defect_rate.getD 0 / 0.1)
    have h3 := min_one_mul_hundred_le (d.demand_volatility.getD 0 / 0.3)
    have h4 := min_one_mul_hundred_le (d.avg_processing_time.getD 0 / 7)
    refine ⟨hv, by linarith, ?_⟩
    exact round1_le_int (n := 100) (by linarith)
  · intro h
    rw [if_pos h]
  · intro h1 h2
    rw [if_neg (not_le.mpr h2), if_pos h1]
  · intro h1 h2
    rw [if_neg (not_le.mpr (by linarith)), if_neg (not_le.mpr h2), if_pos h1]
  · intro h
    rw [if_neg (not_le.mpr (by linarith)), if_neg (not_le.mpr (by linarith)),
      if_neg (not_le.mpr h)]
  · norm_num [round1, pyRound0, min_def, max_def]
  · norm_num [min_def, max_def]

/-- Witness for C6 (amended) at the literal risk input of the spec. -/
theorem C6_risk_score_witness :
    ∃ S : ℚ,
      S = (RiskAssessment.calculate_risk_score
            ⟨some 0.12, some 0.65, some 0.08, some 0.25, some 3.5⟩).component_scores.volume_risk * 0.3 +
          (RiskAssessment.calculate_risk_score
            ⟨some 0.12, some 0.65, some 0.08, some 0.25, some 3.5⟩).component_scores.value_risk * 0.25 +
          (RiskAssessment.calculate_risk_score
            ⟨some 0.12, some 0.65, some 0.08, some 0.25, some 3.5⟩).component_scores.quality_risk * 0.2 +
          (RiskAssessment.calculate_risk_score
            ⟨some 0.12, some 0.65, some 0.08, some 0.25, some 3.5⟩).component_scores.market_risk * 0.15 +
          (RiskAssessment.calculate_risk_score
            ⟨some 0.12, some 0.65, some 0.08, some 0.25, some 3.5⟩).component_scores.operational_risk * 0.1 ∧
      (RiskAssessment.calculate_risk_score
        ⟨some 0.12, some 0.65, some 0.08, some 0.25, some 3.5⟩).component_scores.value_risk ≤ 100 ∧
      S ≤ 100 ∧
      (RiskAssessment.calculate_risk_score
        ⟨some 0.12, some 0.65, some 0.08, some 0.25, some 3.5⟩).overall_score ≤ 100 := by
  obtain ⟨S, hS, _, _, _, _, _, hcap, _⟩ :=
    C6_risk_score ⟨some 0.12, some 0.65, some 0.08, some 0.25, some 3.5⟩
  obtain ⟨h1, h2, h3⟩ := hcap (by norm_num)
  exact ⟨S, hS, h1, h2, h3⟩

open DispositionPredictor in
/-- C9. Action-name case handling is inconsistent across the prediction
pipeline: for every action string that equals "resale", "repair", "recycle"
or "donate" up to ASCII case but is not exactly that lowercase string, the
estimated value, CO2, landfill, processing-time and marketplace computations
treat it as that action (they lowercase before lookup), while the reasoning
generator compares case-sensitively and returns the generic fallback
sentence ending in "Confidence: ..." instead of the action-specific
clause. -/
theorem C9_action_case_inconsistency (fmt : ℚ → String) (item : ReturnItem)
    (action a : String) (conf v : ℚ)
    (ha : a ∈ (["resale", "repair", "recycle", "donate"] : List String))
    (hl : strLower action = a) (hne : action ≠ a) :
    calculate_estimated_value item action = calculate_estimated_value item a ∧
    calculate_co2_impact item action = calculate_co2_impact item a ∧
    calculate_waste_impact item action = calculate_waste_impact item a ∧
    estimate_processing_time action item.category =
      estimate_processing_time a item.category ∧
    select_marketplace action item.category v =
      select_marketplace a item.category v ∧
    generate_reasoning fmt item action conf =
      "Item in " ++ condition_desc item.condition ++ " condition" ++
        ". Confidence: " ++ fmt conf := by
  fin_cases ha
  · have hll : strLower action = strLower "resale" :=
      hl.trans (show ("resale" : String) = strLower "resale" by decide)
    have h1 : action ≠ "resale" := hne
    have h2 : action ≠ "repair" := by
      intro he; rw [he] at hl; exact absurd hl (by decide)
    have h3 : action ≠ "recycle" := by
      intro he; rw [he] at hl; exact absurd hl (by decide)
    have h4 : action ≠ "donate" := by
      intro he; rw [he] at hl; exact absurd hl (by decide)
    refine ⟨?_, ?_, ?_, ?_, select_marketplace_congr hll item.category v, ?_⟩
    · unfold calculate_estimated_value; rw [action_multiplier_congr hll]
    · unfold calculate_co2_impact; rw [co2_factor_congr hll]
    · unfold calculate_waste_impact; rw [waste_action_factor_congr hll]
    · unfold estimate_processing_time; rw [base_processing_time_congr hll]
    · simp only [generate_reasoning, if_neg h1, if_neg h2, if_neg h3, if_neg h4]
  · have hll : strLower action = strLower "repair" :=
      hl.trans (show ("repair" : String) = strLower "repair" by decide)
    have h1 : action ≠ "resale" := by
      intro he; rw [he] at hl; exact absurd hl (by decide)
    have h2 : action ≠ "repair" := hne
    have h3 : action ≠ "recycle" := by
      intro he; rw [he] at hl; exact absurd hl (by decide)
    have h4 : action ≠ "donate" := by
      intro he; rw [he] at hl; exact absurd hl (by decide)
    refine ⟨?_, ?_, ?_, ?_, select_marketplace_congr hll item.category v, ?_⟩
    · unfold calculate_estimated_value; rw [action_multiplier_congr hll]
    · unfold calculate_co2_impact; rw [co2_factor_congr hll]
    · unfold calculate_waste_impact; rw [waste_action_factor_congr hll]
    · unfold estimate_processing_time; rw [base_processing_time_congr hll]
    · simp only [generate_reasoning, if_neg h1, if_neg h2, if_neg h3, if_neg h4]
  · have hll : strLower action = strLower "recycle" :=
      hl.trans (show ("recycle" : String) = strLower "recycle" by decide)
    have h1 : action ≠ "resale" := by
      intro he; rw [he] at hl; exact absurd hl (by decide)
    have h2 : action ≠ "repair" := by
      intro he; rw [he] at hl; exact absurd hl (by decide)
    have h3 : action ≠ "recycle" := hne
    have h4 : action ≠ "donate" := by
      intro he; rw [he] at hl; exact absurd hl (by decide)
    refine ⟨?_, ?_, ?_, ?_, select_marketplace_congr hll item.category v, ?_⟩
    · unfold calculate_estimated_value; rw [action_multiplier_congr hll]
    · unfold calculate_co2_impact; rw [co2_factor_congr hll]
    · unfold calculate_waste_impact; rw [waste_action_factor_congr hll]
    · unfold estimate_processing_time; rw [base_processing_time_congr hll]
    · simp only [generate_reasoning, if_neg h1, if_neg h2, if_neg h3, if_neg h4]
  · have hll : strLower action = strLower "donate" :=
      hl.trans (show ("donate" : String) = strLower "donate" by decide)
    have h1 : action ≠ "resale" := by
      intro he; rw [he] at hl; exact absurd hl (by decide)
    have h2 : action ≠ "repair" := by
      intro he; rw [he] at hl; exact absurd hl (by decide)
    have h3 : action ≠ "recycle" := by
      intro he; rw [he] at hl; exact absurd hl (by decide)
    have h4 : action ≠ "donate" := hne
    refine ⟨?_, ?_, ?_, ?_, select_marketplace_congr hll item.category v, ?_⟩
    · unfold calculate_estimated_value; rw [action_multiplier_congr hll]
    · unfold calculate_co2_impact; rw [co2_factor_congr hll]
    · unfold calculate_waste_impact; rw [waste_action_factor_congr hll]
    · unfold estimate_processing_time; rw [base_processing_time_congr hll]
    · simp only [generate_reasoning, if_neg h1, if_neg h2, if_neg h3, if_neg h4]

open DispositionPredictor in
/-- Witness for C9 at the action string "Resale". -/
theorem C9_action_case_inconsistency_witness :
    calculate_estimated_value testItem "Resale" =
      calculate_estimated_value testItem "resale" ∧
    calculate_co2_impact testItem "Resale" = calculate_co2_impact testItem "resale" ∧
    calculate_waste_impact testItem "Resale" =
      calculate_waste_impact testItem "resale" ∧
    estimate_processing_time "Resale" testItem.category =
      estimate_processing_time "resale" testItem.category ∧
    select_marketplace "Resale" testItem.category 0 =
      select_marketplace "resale" testItem.category 0 ∧
    generate_reasoning (fun _ => "55.0%") testItem "Resale" 0.55 =
      "Item in " ++ condition_desc testItem.condition ++ " condition" ++
        ". Confidence: " ++ "55.0%" :=
  C9_action_case_inconsistency (fun _ => "55.0%") testItem "Resale" "resale" 0.55 0
    (by decide) (by decide) (by decide)

open ValueForecaster in
/-- C7. For every trained forecaster — with the regressor's standard
one-prediction-per-row contract and the square root's non-negativity as
collaborator contracts — and every requested period count, forecast succeeds
and returns exactly `periods` entries in chronological order whose 1-indexed
period fields are 1..periods, and every entry satisfies
lower_bound ≤ predicted_value ≤ upper_bound. -/
theorem C7_forecast_shape (sqrtFn : ℚ → ℚ) (slopeFn : List ℚ → ℚ)
    (dateFeats : ℕ → ℚ × ℚ × ℚ × ℚ) (vf : ValueForecaster.State) (periods : ℕ)
    (category : Option String)
    (htr : vf.is_trained = true)
    (hlen : ∀ X, (vf.predictFn X).length = X.length)
    (hsqrt : ∀ x, 0 ≤ x → 0 ≤ sqrtFn x) :
    ∃ r : ForecastResult,
      forecast sqrtFn slopeFn dateFeats vf periods category = .ok r ∧
      r.predictions.length = periods ∧
      (∀ i (h : i < r.predictions.length),
        (r.predictions.get ⟨i, h⟩).period = i + 1 ∧
        (r.predictions.get ⟨i, h⟩).lower_bound ≤
          (r.predictions.get ⟨i, h⟩).predicted_value ∧
        (r.predictions.get ⟨i, h⟩).predicted_value ≤
          (r.predictions.get ⟨i, h⟩).upper_bound) := by
  unfold forecast
  rw [if_neg (show ¬((!vf.is_trained) = true) by simp [htr])]
  refine ⟨_, rfl, ?_, ?_⟩
  · simp only [List.length_map, List.enum_length, List.length_zip, hlen,
      generate_future_features, List.length_range, min_self]
  · intro i h
    have h0 : 0 ≤ sqrtFn (listVar
        (vf.predictFn (generate_future_features dateFeats periods category))) :=
      hsqrt _ (listVar_nonneg _)
    refine ⟨?_, ?_, ?_⟩
    · simp [List.getElem_map, List.getElem_enum]
    · simp only [List.get_eq_getElem, List.getElem_map, List.getElem_enum,
        List.getElem_zip]
      linarith [h0]
    · simp only [List.get_eq_getElem, List.getElem_map, List.getElem_enum,
        List.getElem_zip]
      linarith [h0]

open ValueForecaster in
/-- Witness for C7: a concrete trained forecaster with a constant regressor,
6 periods. -/
theorem C7_forecast_shape_witness :
    ∃ r : ForecastResult,
      forecast (fun _ => 0) (fun _ => 0) (fun _ => (1, 1, 1, 1))
        ⟨true, fun X => X.map fun _ => 5⟩ 6 none = .ok r ∧
      r.predictions.length = 6 ∧
      (∀ i (h : i < r.predictions.length),
        (r.predictions.get ⟨i, h⟩).period = i + 1 ∧
        (r.predictions.get ⟨i, h⟩).lower_bound ≤
          (r.predictions.get ⟨i, h⟩).predicted_value ∧
        (r.predictions.get ⟨i, h⟩).predicted_value ≤
          (r.predictions.get ⟨i, h⟩).upper_bound) :=
  C7_forecast_shape (fun _ => 0) (fun _ => 0) (fun _ => (1, 1, 1, 1))
    ⟨true, fun X => X.map fun _ => 5⟩ 6 none rfl
    (fun X => by simp) (fun x hx => le_refl 0)

end SmartReturns
